import Mathlib

/- Verification of the ALDL diagnostic-protocol core of the KingAi 68HC11
   repository: the additive checksum, the seed-key security computation,
   the frame codec, the mode dispatcher, the flash bank address translator,
   the patch-window guard, and the example mode-4 responder. -/

namespace ALDL

/- Constants from hc11_esp32_arduino_raspberri_code/shared/aldl_protocol.h. -/

def DEVICE_PCM : Nat := 0xF4

def DEVICE_PCM_VY_V6 : Nat := 0xF7

def DEVICE_BCM : Nat := 0xF1

def DEVICE_IPC : Nat := 0xF0

def DEVICE_ABS : Nat := 0xF9

def MODE_1 : Nat := 0x01

def MODE_4 : Nat := 0x04

def MODE_5 : Nat := 0x05

def MODE_6 : Nat := 0x06

def MODE_13 : Nat := 0x0D

def ALDL_LENGTH_OFFSET : Nat := 85

def ALDL_SIMPLE_LENGTH : Nat := 0x56

def ALDL_SEED_REQ_LENGTH : Nat := 0x57

def ALDL_SEED_RESP_LENGTH : Nat := 0x59

def ALDL_KEY_RESP_HEADER : Nat := 0x58

def RESPONSE_OK : Nat := 0xAA

def RESPONSE_REJECTED : Nat := 0xCC

def RESPONSE_FAIL : Nat := 0x55

def PCM_SECURITY_MAGIC : Nat := 37709

def BANK_1_ID : Nat := 0x48

def BANK_2_ID : Nat := 0x58

def BANK_3_ID : Nat := 0x50

def PATCH_AREA_START : Nat := 0x5D00

def PATCH_AREA_SIZE : Nat := 0x0300

/-- Embedding of `aldl_checksum` (aldl_protocol.h lines 201-207): the running
sum is a C `uint16_t`, so it accumulates mod 2^16; the result is
`(256 - (sum & 0xFF)) & 0xFF`. Total function: no failure mode. -/
def aldl_checksum (data : List Nat) : Nat :=
  let sum := data.foldl (fun s b => (s + b) % 65536) 0
  (256 - sum % 256) % 256

/-- Embedding of `calculate_security_key` (aldl_protocol.h lines 216-221):
`seed = seed_lo * 256 + seed_hi` truncated to `uint16_t`, then
`key = 37709 - seed` in `int32_t`, `if key < 0 then key += 65536`, and the
return value is truncated to `uint16_t`. -/
def calculate_security_key (seed_hi seed_lo : Nat) : Nat :=
  let seed := (seed_lo * 256 + seed_hi) % 65536
  let key : Int := (PCM_SECURITY_MAGIC : Int) - (seed : Int)
  let key2 : Int := if key < 0 then key + 65536 else key
  key2.toNat % 65536

/-- Helper: folding with a mod-2^16 accumulator agrees with the plain list sum
modulo 2^16. -/
theorem foldl_mod_sum (data : List Nat) (init : Nat) :
    data.foldl (fun s b => (s + b) % 65536) init % 65536
      = (init + data.sum) % 65536 := by
  induction data generalizing init with
  | nil => simp
  | cons b t ih =>
      simp only [List.foldl_cons, List.sum_cons]
      rw [ih]
      omega

/-- C1: for every byte sequence (the empty sequence included), `aldl_checksum`
returns `(256 - (sum(bytes) mod 256)) mod 256`; it is a total pure function
with no failure mode, and the 16-bit accumulator does not change the result. -/
theorem aldl_checksum_spec (data : List Nat) (_hb : ∀ b ∈ data, b < 256) :
    aldl_checksum data = (256 - data.sum % 256) % 256 := by
  have h1 : data.foldl (fun s b => (s + b) % 65536) 0 % 65536
      = data.sum % 65536 := by
    simpa using foldl_mod_sum data 0
  have h2 : data.foldl (fun s b => (s + b) % 65536) 0 % 65536 % 256
      = data.foldl (fun s b => (s + b) % 65536) 0 % 256 :=
    Nat.mod_mod_of_dvd _ (by norm_num)
  have h3 : data.sum % 65536 % 256 = data.sum % 256 :=
    Nat.mod_mod_of_dvd _ (by norm_num)
  simp only [aldl_checksum]
  rw [← h2, h1, h3]

/-- Witness for C1 at a concrete byte sequence. -/
theorem aldl_checksum_spec_witness :
    (∀ b ∈ [0x12, 0x34, 0xFF], b < 256)
      ∧ aldl_checksum [0x12, 0x34, 0xFF] = (256 - [0x12, 0x34, 0xFF].sum % 256) % 256 :=
  ⟨by decide, aldl_checksum_spec [0x12, 0x34, 0xFF] (by decide)⟩

/-- C2: for every pair of seed bytes, the key is
`(37709 - (seedLo*256 + seedHi)) mod 65536` (mathematical mod, realised in the
code by the `if key < 0 then key += 65536` wraparound); in particular the key
for seed bytes (0,0) is 37709, and whenever `seedLo*256 + seedHi = 40000` the
key is 63245. -/
theorem calculate_security_key_spec (hi lo : Nat) (hh : hi < 256) (hl : lo < 256) :
    calculate_security_key hi lo
        = (((37709 : Int) - (lo * 256 + hi : Nat)) % 65536).toNat
      ∧ calculate_security_key 0 0 = 37709
      ∧ (lo * 256 + hi = 40000 → calculate_security_key hi lo = 63245) := by
  have hseed : lo * 256 + hi < 65536 := by omega
  refine ⟨?_, by decide, ?_⟩
  · simp only [calculate_security_key, PCM_SECURITY_MAGIC]
    rw [Nat.mod_eq_of_lt hseed]
    split <;> omega
  · intro h40
    simp only [calculate_security_key, PCM_SECURITY_MAGIC]
    rw [Nat.mod_eq_of_lt hseed, h40]
    decide

/-- Witness for C2 at seed bytes (hi,lo) = (64,156), i.e. seed 40000. -/
theorem calculate_security_key_spec_witness :
    ((64 : Nat) < 256 ∧ (156 : Nat) < 256)
      ∧ (calculate_security_key 64 156
            = (((37709 : Int) - (156 * 256 + 64 : Nat)) % 65536).toNat
          ∧ calculate_security_key 0 0 = 37709
          ∧ (156 * 256 + 64 = 40000 → calculate_security_key 64 156 = 63245)) :=
  ⟨by decide, calculate_security_key_spec 64 156 (by decide) (by decide)⟩

/- Flash address translation.  The repository ships only the bank-id and
file-base constants (aldl_protocol.h lines 94-109); the translator function
itself is not in the source tree. -/

inductive TranslateError
  | BankOutOfRange
deriving DecidableEq, Repr

/-- Modelled from the spec: the Flash Address Translator is absent from the
source tree (only `BANK_1_ID`/`BANK_2_ID`/`BANK_3_ID` and the file-base
comments `0x10000`/`0x18000` appear in aldl_protocol.h).  Per the spec,
`cpuAddr < 0x8000` maps to `fileOffset = cpuAddr`; otherwise
`fileOffset = bankFileBase(bankId) + (cpuAddr - 0x8000)` with bases
0x00000/0x10000/0x18000; an unrecognized bank id fails with
`BankOutOfRange`. -/
def bankFileBase (bankId : Nat) : Option Nat :=
  if bankId = BANK_1_ID then some 0x00000
  else if bankId = BANK_2_ID then some 0x10000
  else if bankId = BANK_3_ID then some 0x18000
  else none

/-- Modelled from the spec: file-offset computation of the Flash Address
Translator (see `bankFileBase`). -/
def translate (bankId cpuAddr : Nat) : Except TranslateError Nat :=
  match bankFileBase bankId with
  | none => .error .BankOutOfRange
  | some base =>
      if cpuAddr < 0x8000 then .ok cpuAddr
      else .ok (base + (cpuAddr - 0x8000))

/-- C3: for every cpuAddr in 0x0000..0xFFFF, a low address translates to
itself under any recognized bank; a high address translates to the bank's
file base plus the window offset, with bases 0x00000, 0x10000, 0x18000 for
banks 1, 2, 3; an unrecognized bank id fails with `BankOutOfRange`; and the
three concrete test vectors of the spec hold. -/
theorem translate_spec (bankId cpuAddr : Nat) (hA : cpuAddr < 0x10000) :
    ((cpuAddr < 0x8000 →
        (bankId = BANK_1_ID ∨ bankId = BANK_2_ID ∨ bankId = BANK_3_ID) →
        translate bankId cpuAddr = .ok cpuAddr)
      ∧ (0x8000 ≤ cpuAddr →
          translate BANK_1_ID cpuAddr = .ok (0x00000 + (cpuAddr - 0x8000))
            ∧ translate BANK_2_ID cpuAddr = .ok (0x10000 + (cpuAddr - 0x8000))
            ∧ translate BANK_3_ID cpuAddr = .ok (0x18000 + (cpuAddr - 0x8000)))
      ∧ (bankId ≠ BANK_1_ID → bankId ≠ BANK_2_ID → bankId ≠ BANK_3_ID →
          translate bankId cpuAddr = .error .BankOutOfRange))
      ∧ translate BANK_2_ID 0x8000 = .ok 0x10000
      ∧ translate BANK_3_ID 0x8005 = .ok 0x18005
      ∧ translate BANK_1_ID 0x0100 = .ok 0x0100 := by
  refine ⟨⟨?_, ?_, ?_⟩, rfl, rfl, rfl⟩
  · intro hlo hbank
    rcases hbank with h | h | h <;>
      simp [translate, bankFileBase, h, BANK_1_ID, BANK_2_ID, BANK_3_ID, hlo]
  · intro hhi
    have hnlo : ¬ cpuAddr < 0x8000 := by omega
    refine ⟨?_, ?_, ?_⟩ <;>
      simp [translate, bankFileBase, BANK_1_ID, BANK_2_ID, BANK_3_ID, hnlo]
  · intro h1 h2 h3
    simp [translate, bankFileBase, h1, h2, h3]

/-- Witness for C3 at bank id 0x58 (bank 2) and cpuAddr 0x9000. -/
theorem translate_spec_witness :
    (0x9000 : Nat) < 0x10000
      ∧ ((((0x9000 : Nat) < 0x8000 →
            ((0x58 : Nat) = BANK_1_ID ∨ (0x58 : Nat) = BANK_2_ID ∨ (0x58 : Nat) = BANK_3_ID) →
            translate 0x58 0x9000 = .ok 0x9000)
          ∧ (0x8000 ≤ (0x9000 : Nat) →
              translate BANK_1_ID 0x9000 = .ok (0x00000 + (0x9000 - 0x8000))
                ∧ translate BANK_2_ID 0x9000 = .ok (0x10000 + (0x9000 - 0x8000))
                ∧ translate BANK_3_ID 0x9000 = .ok (0x18000 + (0x9000 - 0x8000)))
          ∧ ((0x58 : Nat) ≠ BANK_1_ID → (0x58 : Nat) ≠ BANK_2_ID → (0x58 : Nat) ≠ BANK_3_ID →
              translate 0x58 0x9000 = .error .BankOutOfRange))
          ∧ translate BANK_2_ID 0x8000 = .ok 0x10000
          ∧ translate BANK_3_ID 0x8005 = .ok 0x18005
          ∧ translate BANK_1_ID 0x0100 = .ok 0x0100) :=
  ⟨by decide, translate_spec 0x58 0x9000 (by decide)⟩

/- Patch-window guard.  The repository ships only the window constants
`PATCH_AREA_START = 0x5D00` and `PATCH_AREA_SIZE = 0x0300`
(aldl_protocol.h lines 107-109); the guard itself is not in the source
tree. -/

inductive PatchError
  | PatchOverflow
deriving DecidableEq, Repr

/-- Modelled from the spec: the patch-window guard is absent from the source
tree (only `PATCH_AREA_START`/`PATCH_AREA_SIZE` appear in aldl_protocol.h).
Per the spec, a write request during a patch operation at an address inside
`[PATCH_AREA_START, PATCH_AREA_START + PATCH_AREA_SIZE)` is accepted at that
exact address; any other address fails closed with `PatchOverflow`. -/
def patch_write (cpuAddr : Nat) : Except PatchError Nat :=
  if PATCH_AREA_START ≤ cpuAddr ∧ cpuAddr < PATCH_AREA_START + PATCH_AREA_SIZE
  then .ok cpuAddr
  else .error .PatchOverflow

/-- C6: a patch-operation write outside the fixed window
`[0x5D00, 0x5D00+0x300)` fails with `PatchOverflow`; a write inside the
window is accepted at the unmodified address (never clamped); and any
accepted write's address lies inside the window (never silently
permitted). -/
theorem patch_write_spec (a : Nat) :
    ((a < 0x5D00 ∨ 0x5D00 + 0x300 ≤ a) → patch_write a = .error .PatchOverflow)
      ∧ (0x5D00 ≤ a → a < 0x5D00 + 0x300 → patch_write a = .ok a)
      ∧ (∀ off, patch_write a = .ok off →
          off = a ∧ 0x5D00 ≤ a ∧ a < 0x5D00 + 0x300) := by
  refine ⟨?_, ?_, ?_⟩
  · intro h
    simp only [patch_write, PATCH_AREA_START, PATCH_AREA_SIZE]
    rw [if_neg]
    omega
  · intro h1 h2
    simp only [patch_write, PATCH_AREA_START, PATCH_AREA_SIZE]
    rw [if_pos]
    omega
  · intro off h
    simp only [patch_write, PATCH_AREA_START, PATCH_AREA_SIZE] at h
    by_cases hin : 23808 ≤ a ∧ a < 23808 + 768
    · rw [if_pos hin] at h
      cases h
      omega
    · rw [if_neg hin] at h
      cases h

/-- Witness for C6: a write below the window and a write at 0x5E00 inside
it. -/
theorem patch_write_spec_witness :
    patch_write 0x5C00 = .error .PatchOverflow ∧ patch_write 0x5E00 = .ok 0x5E00 :=
  ⟨(patch_write_spec 0x5C00).1 (by decide),
   (patch_write_spec 0x5E00).2.1 (by decide) (by decide)⟩

/- Frame codec.  The repository ships only the frame-structure constants
(aldl_protocol.h lines 64-71) and the checksum; the codec itself is not in
the source tree. -/

def knownDeviceIds : List Nat :=
  [DEVICE_PCM, DEVICE_PCM_VY_V6, DEVICE_BCM, DEVICE_IPC, DEVICE_ABS]

inductive DecodeError
  | InvalidLength
  | ChecksumMismatch
  | Incomplete
deriving DecidableEq, Repr

/-- Modelled from the spec: the Frame Codec's encoder is absent from the
source tree (only `ALDL_LENGTH_OFFSET` and `aldl_checksum` appear in
aldl_protocol.h).  Per the spec, the wire frame is
`[deviceId, lengthByte, mode, payload.., checksum]` with
`lengthByte = 85 + 1 + len(payload)` carried in one byte and the checksum
computed over all preceding bytes. -/
def encode (deviceId mode : Nat) (payload : List Nat) : List Nat :=
  let lengthByte := (ALDL_LENGTH_OFFSET + 1 + payload.length) % 256
  let body := deviceId :: lengthByte :: mode :: payload
  body ++ [aldl_checksum body]

/-- Modelled from the spec: decoding after the device byte has been
recognized.  `n = lengthByte - 85 - 1`; a length byte below 86 fails with
`InvalidLength`; the final byte must equal the checksum of everything before
it, else `ChecksumMismatch`. -/
def decodeAfterDevice (d : Nat) : List Nat → Except DecodeError (Nat × Nat × List Nat)
  | [] => .error .Incomplete
  | l :: rest =>
      if l < ALDL_LENGTH_OFFSET + 1 then .error .InvalidLength
      else
        match rest with
        | [] => .error .Incomplete
        | m :: rest2 =>
            let n := l - (ALDL_LENGTH_OFFSET + 1)
            if rest2.length < n + 1 then .error .Incomplete
            else
              let payload := rest2.take n
              match rest2.drop n with
              | [] => .error .Incomplete
              | c :: _ =>
                  if c = aldl_checksum (d :: l :: m :: payload)
                  then .ok (d, m, payload)
                  else .error .ChecksumMismatch

/-- Modelled from the spec: the Frame Codec's decoder state machine is absent
from the source tree.  `WAIT_DEVICE` silently skips bytes outside the known
device-id set; the rest of the frame is parsed by `decodeAfterDevice`. -/
def decode : List Nat → Except DecodeError (Nat × Nat × List Nat)
  | [] => .error .Incomplete
  | d :: rest =>
      if d ∈ knownDeviceIds then decodeAfterDevice d rest
      else decode rest

/-- Helper: taking the length of the left list from an append returns the
left list. -/
theorem take_len_append (p q : List Nat) : (p ++ q).take p.length = p := by
  induction p with
  | nil => simp
  | cons a t ih => simp [ih]

/-- Helper: dropping the length of the left list from an append returns the
right list. -/
theorem drop_len_append (p q : List Nat) : (p ++ q).drop p.length = q := by
  induction p with
  | nil => simp
  | cons a t ih => simp [ih]

set_option maxRecDepth 10000 in
/-- C4 counterexample: at payload length 170 the length byte
`85 + 1 + 170 = 336` no longer fits in the one-byte length field, wraps to
80, and decoding fails with `InvalidLength` instead of returning the
frame. -/
theorem decode_encode_fails_at_170 :
    decode (encode 0xF4 0x00 (List.replicate 170 0x00))
        = Except.error DecodeError.InvalidLength
      ∧ decode (encode 0xF4 0x00 (List.replicate 170 0x00))
          ≠ Except.ok (0xF4, 0x00, List.replicate 170 0x00) := by
  have h : decode (encode 0xF4 0x00 (List.replicate 170 0x00))
      = Except.error DecodeError.InvalidLength := by rfl
  refine ⟨h, ?_⟩
  rw [h]
  intro hcontra
  cases hcontra

/-- C4 (amended): for every device id in the known set, mode byte, and
payload of byte values with length at most 169 (so that the one-byte length
field `85 + 1 + len` does not wrap), decoding the encoding returns exactly
the original (deviceId, mode, payload). -/
theorem decode_encode_roundtrip (d m : Nat) (p : List Nat)
    (hd : d ∈ knownDeviceIds) (_hm : m < 256)
    (hp : p.length ≤ 169) (_hpb : ∀ b ∈ p, b < 256) :
    decode (encode d m p) = Except.ok (d, m, p) := by
  have hlen : (ALDL_LENGTH_OFFSET + 1 + p.length) % 256
      = ALDL_LENGTH_OFFSET + 1 + p.length := by
    apply Nat.mod_eq_of_lt
    simp only [ALDL_LENGTH_OFFSET]
    omega
  have hbody : encode d m p
      = d :: (ALDL_LENGTH_OFFSET + 1 + p.length) :: m ::
          (p ++ [aldl_checksum
            (d :: (ALDL_LENGTH_OFFSET + 1 + p.length) :: m :: p)]) := by
    simp only [encode, hlen]
    simp
  rw [hbody]
  simp only [decode, if_pos hd]
  simp only [decodeAfterDevice]
  rw [if_neg (by omega)]
  have hn : ALDL_LENGTH_OFFSET + 1 + p.length - (ALDL_LENGTH_OFFSET + 1)
      = p.length := by omega
  simp only [hn]
  have hlen2 : (p ++ [aldl_checksum
      (d :: (ALDL_LENGTH_OFFSET + 1 + p.length) :: m :: p)]).length
      = p.length + 1 := by simp
  rw [if_neg (by rw [hlen2]; omega)]
  rw [take_len_append, drop_len_append]
  simp

/-- Witness for C4 at device id 0xF4, mode 1, payload [1, 2, 3]. -/
theorem decode_encode_roundtrip_witness :
    ((0xF4 : Nat) ∈ knownDeviceIds ∧ (1 : Nat) < 256
        ∧ ([1, 2, 3] : List Nat).length ≤ 169 ∧ ∀ b ∈ [1, 2, 3], b < 256)
      ∧ decode (encode 0xF4 1 [1, 2, 3]) = Except.ok (0xF4, 1, [1, 2, 3]) :=
  ⟨⟨by decide, by decide, by decide, by decide⟩,
   decode_encode_roundtrip 0xF4 1 [1, 2, 3] (by decide) (by decide)
     (by decide) (by decide)⟩

/- Security handshake and mode dispatcher.  The repository ships only the
mode numbers, the response codes and the security constants; the dispatcher
and the session state machine themselves are not in the source tree. -/

inductive SecState
  | LOCKED
  | SEED_ISSUED
  | UNLOCKED
deriving DecidableEq, Repr

/-- Modelled from the spec: the per-connection security session, absent from
the source tree.  It records the state machine position and the seed bytes
last issued. -/
structure SecuritySession where
  state : SecState
  seedHi : Nat
  seedLo : Nat
deriving DecidableEq, Repr

/-- Modelled from the spec: a decoded frame header, as built by the
dispatcher for its replies.  The length byte is `85 + 1 + len(payload)`
carried in one byte. -/
structure Frame where
  deviceId : Nat
  lengthByte : Nat
  mode : Nat
  payload : List Nat
deriving DecidableEq, Repr

/-- Modelled from the spec: reply-frame construction with the length byte
computed from the payload length. -/
def mkFrame (d m : Nat) (p : List Nat) : Frame :=
  ⟨d, (ALDL_LENGTH_OFFSET + 1 + p.length) % 256, m, p⟩

def implementedModes : List Nat := [ MODE_1, MODE_4, MODE_5, MODE_6, MODE_13]

/-- Modelled from the spec: the outcome of dispatching one decoded frame —
the updated session, the reply frame if the dispatcher itself builds one,
and whether the privileged flash/upload handler was invoked. -/
structure DispatchResult where
  session : SecuritySession
  reply : Option Frame
  flashHandlerInvoked : Bool
deriving Repr

/-- Modelled from the spec: the Mode Dispatcher and Security Handshake,
absent from the source tree (only mode numbers, response codes and
`PCM_SECURITY_MAGIC` appear in aldl_protocol.h).  Modes 5/6 require an
UNLOCKED session, else reply `RESPONSE_REJECTED` without invoking the
handler.  Mode 13 with a one-byte payload is a seed request (header 0x57):
it issues the externally generated seed pair `gen` and replies with header
0x59 and payload `[submode, seedHi, seedLo]`.  Mode 13 with a two-byte
payload is a key submission (header 0x58): from SEED_ISSUED, a submitted
key equal to `calculate_security_key seedHi seedLo` unlocks and replies
`RESPONSE_OK` (0xAA), anything else falls back to LOCKED and replies
`RESPONSE_REJECTED` (0xCC).  Modes 1 and 4 are delegated to external
collaborators.  Any other mode replies `RESPONSE_FAIL` (0x55); the function
is total, so no frame aborts the dispatcher. -/
def dispatch (sess : SecuritySession) (gen : Nat × Nat) (d m : Nat)
    (p : List Nat) : DispatchResult :=
  if m = MODE_5 ∨ m = MODE_6 then
    match sess.state with
    | .UNLOCKED => ⟨sess, some (mkFrame d m [RESPONSE_OK]), true⟩
    | _ => ⟨sess, some (mkFrame d m [RESPONSE_REJECTED]), false⟩
  else if m = MODE_13 then
    match p with
    | [submode] =>
        ⟨⟨.SEED_ISSUED, gen.1, gen.2⟩,
         some (mkFrame d MODE_13 [submode, gen.1, gen.2]), false⟩
    | [keyHi, keyLo] =>
        match sess.state with
        | .SEED_ISSUED =>
            if keyHi * 256 + keyLo = calculate_security_key sess.seedHi sess.seedLo
            then ⟨⟨.UNLOCKED, sess.seedHi, sess.seedLo⟩,
                  some (mkFrame d MODE_13 [RESPONSE_OK]), false⟩
            else ⟨⟨.LOCKED, sess.seedHi, sess.seedLo⟩,
                  some (mkFrame d MODE_13 [RESPONSE_REJECTED]), false⟩
        | _ => ⟨sess, some (mkFrame d MODE_13 [RESPONSE_REJECTED]), false⟩
    | _ => ⟨sess, some (mkFrame d MODE_13 [RESPONSE_FAIL]), false⟩
  else if m = MODE_1 then
    ⟨sess, none, false⟩
  else if m = MODE_4 then
    ⟨sess, none, false⟩
  else
    ⟨sess, some (mkFrame d m [RESPONSE_FAIL]), false⟩

/-- C5: dispatching a mode-5 or mode-6 frame while the session is not
UNLOCKED replies `RESPONSE_REJECTED` (0xCC) and does not invoke the
flash/upload handler; and after a correct seed/key exchange starting from
LOCKED, an identical mode-6 request reaches the handler. -/
theorem dispatch_security_gate (sess : SecuritySession) (gen : Nat × Nat)
    (d m sm keyHi keyLo hi lo : Nat) (p : List Nat)
    (hm : m = MODE_5 ∨ m = MODE_6) (hs : sess.state ≠ SecState.UNLOCKED)
    (hkey : keyHi * 256 + keyLo = calculate_security_key hi lo) :
    ((dispatch sess gen d m p).flashHandlerInvoked = false
        ∧ (dispatch sess gen d m p).reply = some (mkFrame d m [RESPONSE_REJECTED]))
      ∧ ((dispatch
            ((dispatch
                ((dispatch ⟨SecState.LOCKED, 0, 0⟩ (hi, lo) d MODE_13 [sm]).session)
                gen d MODE_13 [keyHi, keyLo]).session)
            gen d MODE_6 p).flashHandlerInvoked = true) := by
  constructor
  · have hcond : m = MODE_5 ∨ m = MODE_6 := hm
    simp only [dispatch, if_pos hcond]
    cases hstate : sess.state with
    | UNLOCKED => exact absurd hstate hs
    | LOCKED => simp
    | SEED_ISSUED => simp
  · have h1 : (dispatch ⟨SecState.LOCKED, 0, 0⟩ (hi, lo) d MODE_13 [sm]).session
        = ⟨SecState.SEED_ISSUED, hi, lo⟩ := by
      simp [dispatch, MODE_13, MODE_5, MODE_6]
    rw [h1]
    have h2 : (dispatch ⟨SecState.SEED_ISSUED, hi, lo⟩ gen d MODE_13
        [keyHi, keyLo]).session = ⟨SecState.UNLOCKED, hi, lo⟩ := by
      simp [dispatch, MODE_13, MODE_5, MODE_6, hkey]
    rw [h2]
    simp [dispatch, MODE_6]

/-- Witness for C5 with a LOCKED session, seed bytes (3,4) and the matching
key 0x8F4A = 36682 = 37709 - (4*256 + 3). -/
theorem dispatch_security_gate_witness :
    (((6 : Nat) = MODE_5 ∨ (6 : Nat) = MODE_6)
        ∧ (⟨SecState.LOCKED, 0, 0⟩ : SecuritySession).state ≠ SecState.UNLOCKED
        ∧ (0x8F : Nat) * 256 + 0x4A = calculate_security_key 3 4)
      ∧ (((dispatch ⟨SecState.LOCKED, 0, 0⟩ (0, 0) 0xF7 6 []).flashHandlerInvoked = false
            ∧ (dispatch ⟨SecState.LOCKED, 0, 0⟩ (0, 0) 0xF7 6 []).reply
                = some (mkFrame 0xF7 6 [RESPONSE_REJECTED]))
          ∧ ((dispatch
                ((dispatch
                    ((dispatch ⟨SecState.LOCKED, 0, 0⟩ (3, 4) 0xF7 MODE_13 [1]).session)
                    (0, 0) 0xF7 MODE_13 [0x8F, 0x4A]).session)
                (0, 0) 0xF7 MODE_6 []).flashHandlerInvoked = true)) :=
  ⟨⟨Or.inr (by decide), by decide, by decide⟩,
   dispatch_security_gate ⟨SecState.LOCKED, 0, 0⟩ (0, 0) 0xF7 6 1 0x8F 0x4A 3 4 []
     (Or.inr (by decide)) (by decide) (by decide)⟩

/-- C8: dispatching a frame whose mode is none of the implemented modes
(1, 4, 5, 6, 13) — for example 0x0B — replies with a `RESPONSE_FAIL` (0x55)
payload frame echoing the original device id, leaves the session unchanged,
and does not invoke the flash handler; `dispatch` is a total function, so no
such frame aborts the dispatcher. -/
theorem dispatch_unknown_mode (sess : SecuritySession) (gen : Nat × Nat)
    (d m : Nat) (p : List Nat) (hm : m ∉ implementedModes) :
    (dispatch sess gen d m p).reply = some (mkFrame d m [RESPONSE_FAIL])
      ∧ (mkFrame d m [RESPONSE_FAIL]).deviceId = d
      ∧ (dispatch sess gen d m p).flashHandlerInvoked = false
      ∧ (dispatch sess gen d m p).session = sess := by
  simp only [implementedModes, List.mem_cons, List.not_mem_nil, or_false,
    not_or] at hm
  obtain ⟨h1, h4, h5, h6, h13⟩ := hm
  simp [dispatch, h1, h4, h5, h6, h13, mkFrame]

/-- Helper: 0x0B is not among the implemented modes. -/
theorem mode_0B_not_implemented : (0x0B : Nat) ∉ implementedModes := by
  simp [implementedModes, MODE_1, MODE_4, MODE_5, MODE_6, MODE_13]

/-- Witness for C8 at mode 0x0B. -/
theorem dispatch_unknown_mode_witness :
    ((0x0B : Nat) ∉ implementedModes)
      ∧ ((dispatch ⟨SecState.LOCKED, 0, 0⟩ (0, 0) 0xF7 0x0B []).reply
            = some (mkFrame 0xF7 0x0B [RESPONSE_FAIL])
          ∧ (mkFrame 0xF7 0x0B [RESPONSE_FAIL]).deviceId = 0xF7
          ∧ (dispatch ⟨SecState.LOCKED, 0, 0⟩ (0, 0) 0xF7 0x0B []).flashHandlerInvoked = false
          ∧ (dispatch ⟨SecState.LOCKED, 0, 0⟩ (0, 0) 0xF7 0x0B []).session
              = ⟨SecState.LOCKED, 0, 0⟩) :=
  ⟨mode_0B_not_implemented,
   dispatch_unknown_mode ⟨SecState.LOCKED, 0, 0⟩ (0, 0) 0xF7 0x0B []
     mode_0B_not_implemented⟩

/-- C9: in the mode-13 security sub-exchange, a seed-request frame (payload
`[submode]`) carries header length byte 0x57; the seed response carries
header 0x59 with payload `[submode, seedHi, seedLo]`; a key-submission frame
(payload `[keyHi, keyLo]`) carries header length byte 0x58; and from
SEED_ISSUED the reply's result byte is 0xAA when the submitted key matches
`calculate_security_key` and 0xCC when it does not. -/
theorem security_subexchange_headers (d sm hi lo keyHi keyLo : Nat)
    (s : SecuritySession) (gen : Nat × Nat)
    (hs : s.state = SecState.SEED_ISSUED) :
    (mkFrame d MODE_13 [sm]).lengthByte = ALDL_SEED_REQ_LENGTH
      ∧ (dispatch ⟨SecState.LOCKED, 0, 0⟩ (hi, lo) d MODE_13 [sm]).reply
          = some (mkFrame d MODE_13 [sm, hi, lo])
      ∧ (mkFrame d MODE_13 [sm, hi, lo]).lengthByte = ALDL_SEED_RESP_LENGTH
      ∧ (mkFrame d MODE_13 [keyHi, keyLo]).lengthByte = ALDL_KEY_RESP_HEADER
      ∧ (keyHi * 256 + keyLo = calculate_security_key s.seedHi s.seedLo →
          (dispatch s gen d MODE_13 [keyHi, keyLo]).reply
            = some (mkFrame d MODE_13 [RESPONSE_OK]))
      ∧ (keyHi * 256 + keyLo ≠ calculate_security_key s.seedHi s.seedLo →
          (dispatch s gen d MODE_13 [keyHi, keyLo]).reply
            = some (mkFrame d MODE_13 [RESPONSE_REJECTED])) := by
  refine ⟨by simp [mkFrame, ALDL_LENGTH_OFFSET, ALDL_SEED_REQ_LENGTH], ?_,
    by simp [mkFrame, ALDL_LENGTH_OFFSET, ALDL_SEED_RESP_LENGTH],
    by simp [mkFrame, ALDL_LENGTH_OFFSET, ALDL_KEY_RESP_HEADER], ?_, ?_⟩
  · simp [dispatch, MODE_13, MODE_5, MODE_6]
  · intro hk
    simp [dispatch, MODE_13, MODE_5, MODE_6, hs, hk]
  · intro hk
    simp [dispatch, MODE_13, MODE_5, MODE_6, hs, hk]

/-- Witness for C9 with session seeds (1,2) and the matching key
0x914C = 37709 - (2*256 + 1). -/
theorem security_subexchange_headers_witness :
    ((⟨SecState.SEED_ISSUED, 1, 2⟩ : SecuritySession).state = SecState.SEED_ISSUED)
      ∧ ((mkFrame 0xF7 MODE_13 [1]).lengthByte = ALDL_SEED_REQ_LENGTH
          ∧ (dispatch ⟨SecState.LOCKED, 0, 0⟩ (3, 4) 0xF7 MODE_13 [1]).reply
              = some (mkFrame 0xF7 MODE_13 [1, 3, 4])
          ∧ (mkFrame 0xF7 MODE_13 [1, 3, 4]).lengthByte = ALDL_SEED_RESP_LENGTH
          ∧ (mkFrame 0xF7 MODE_13 [0x91, 0x4C]).lengthByte = ALDL_KEY_RESP_HEADER
          ∧ ((0x91 : Nat) * 256 + 0x4C
                = calculate_security_key
                    (⟨SecState.SEED_ISSUED, 1, 2⟩ : SecuritySession).seedHi
                    (⟨SecState.SEED_ISSUED, 1, 2⟩ : SecuritySession).seedLo →
              (dispatch ⟨SecState.SEED_ISSUED, 1, 2⟩ (0, 0) 0xF7 MODE_13 [0x91, 0x4C]).reply
                = some (mkFrame 0xF7 MODE_13 [RESPONSE_OK]))
          ∧ ((0x91 : Nat) * 256 + 0x4C
                ≠ calculate_security_key
                    (⟨SecState.SEED_ISSUED, 1, 2⟩ : SecuritySession).seedHi
                    (⟨SecState.SEED_ISSUED, 1, 2⟩ : SecuritySession).seedLo →
              (dispatch ⟨SecState.SEED_ISSUED, 1, 2⟩ (0, 0) 0xF7 MODE_13 [0x91, 0x4C]).reply
                = some (mkFrame 0xF7 MODE_13 [RESPONSE_REJECTED]))) :=
  ⟨rfl,
   security_subexchange_headers 0xF7 1 3 4 0x91 0x4C
     ⟨SecState.SEED_ISSUED, 1, 2⟩ (0, 0) rfl⟩

/- Mode-4 responder example (examples/mode4_responder.c).  `handle_mode4`
reads one control byte, drives PORTB bit 0, and transmits the four bytes
`[0xF7, 0x56, 0x04, fan_state]`. -/

/-- Embedding of `handle_mode4` (mode4_responder.c lines 61-83), with the
control byte read from SCI and the current PORTB value passed in as state.
Returns the new PORTB value, the `fan_state` status byte, and the list of
bytes transmitted over SCI: if bit 0 of the control byte is set, PORTB is
or-ed with 0x01 and the status is 1; otherwise PORTB is and-ed with 0xFE
and the status is 0; then exactly `0xF7, 0x56, 0x04, fan_state` are sent
(no checksum byte is transmitted). -/
def handle_mode4 (control portb : Nat) : Nat × Nat × List Nat :=
  if control &&& 0x01 ≠ 0 then
    (portb ||| 0x01, 1, [0xF7, 0x56, 0x04, 1])
  else
    (portb &&& 0xFE, 0, [0xF7, 0x56, 0x04, 0])

/-- C7: at the concrete failing input control byte 0x01 (PORTB initially
0x00), `handle_mode4` transmits exactly the four bytes
`[0xF7, 0x56, 0x04, 1]` — there is no fifth byte, and the final transmitted
byte (the status, 1) is not the checksum recomputed over the preceding
bytes of the reply, contradicting both the claim and the function's own
comment `[0xF7] [0x56] [0x04] [status] [checksum]`. -/
theorem handle_mode4_missing_checksum :
    (handle_mode4 0x01 0x00).2.2 = [0xF7, 0x56, 0x04, 1]
      ∧ (handle_mode4 0x01 0x00).2.2.length = 4
      ∧ aldl_checksum [0xF7, 0x56, 0x04] ≠ 1
      ∧ aldl_checksum [0xF7, 0x56, 0x04, 1] ≠ 1 := by decide

/-- Helper: bit `i` of 1 is clear for `1 ≤ i ≤ 7`. -/
theorem testBit_one_high (i : Nat) (h1 : 1 ≤ i) (h7 : i ≤ 7) :
    Nat.testBit 1 i = false := by
  interval_cases i <;> decide

/-- Helper: bit `i` of 0xFE is set for `1 ≤ i ≤ 7`. -/
theorem testBit_FE_high (i : Nat) (h1 : 1 ≤ i) (h7 : i ≤ 7) :
    Nat.testBit 0xFE i = true := by
  interval_cases i <;> decide

/-- Helper: the C test `control & 0x01 != 0` holds exactly when bit 0 of the
control byte is set. -/
theorem land_one_ne_zero_iff (n : Nat) : (n &&& 1 ≠ 0) ↔ n.testBit 0 = true := by
  rw [Nat.and_one_is_mod, Nat.testBit_zero]
  simp

/-- C10: `handle_mode4` sets bit 0 of PORTB exactly when bit 0 of the
control byte is set and clears it otherwise; bits 1 through 7 of PORTB keep
their prior values; and the transmitted status byte equals the resulting
bit-0 state (0 or 1). -/
theorem handle_mode4_portb (control portb : Nat) :
    ((handle_mode4 control portb).1.testBit 0 = control.testBit 0)
      ∧ (∀ i, 1 ≤ i → i ≤ 7 →
          (handle_mode4 control portb).1.testBit i = portb.testBit i)
      ∧ (handle_mode4 control portb).2.1
          = (if (handle_mode4 control portb).1.testBit 0 then 1 else 0)
      ∧ (handle_mode4 control portb).2.2
          = [0xF7, 0x56, 0x04, (handle_mode4 control portb).2.1] := by
  by_cases hc : control &&& 0x01 ≠ 0
  · have hbit : control.testBit 0 = true := (land_one_ne_zero_iff control).mp hc
    simp only [handle_mode4, if_pos hc]
    refine ⟨?_, ?_, ?_, trivial⟩
    · rw [Nat.testBit_lor, hbit]
      simp
    · intro i h1 h7
      rw [Nat.testBit_lor, testBit_one_high i h1 h7]
      simp
    · rw [Nat.testBit_lor]
      simp
  · have hbit : control.testBit 0 = false := by
      rw [← Bool.not_eq_true]
      exact fun h => hc ((land_one_ne_zero_iff control).mpr h)
    simp only [handle_mode4, if_neg hc]
    refine ⟨?_, ?_, ?_, trivial⟩
    · rw [Nat.testBit_land, hbit]
      simp
    · intro i h1 h7
      rw [Nat.testBit_land, testBit_FE_high i h1 h7]
      simp
    · rw [Nat.testBit_land]
      simp

/-- Witness for C10 at control byte 3 (bit 0 set) and PORTB 0xAA. -/
theorem handle_mode4_portb_witness :
    ((handle_mode4 3 0xAA).1.testBit 0 = (3 : Nat).testBit 0)
      ∧ (∀ i, 1 ≤ i → i ≤ 7 →
          (handle_mode4 3 0xAA).1.testBit i = (0xAA : Nat).testBit i)
      ∧ (handle_mode4 3 0xAA).2.1
          = (if (handle_mode4 3 0xAA).1.testBit 0 then 1 else 0)
      ∧ (handle_mode4 3 0xAA).2.2
          = [0xF7, 0x56, 0x04, (handle_mode4 3 0xAA).2.1] :=
  handle_mode4_portb 3 0xAA

end ALDL
